import Mathlib

/-!
# Verification of the chat subsystem of `spring25-ip2`

A shallow embedding of the chat service (`src/server/services/chat.service.ts`),
the chat controller routes, and the socket room handlers, together with proofs
and refutations of the specification's claims about them.

Identifiers (Mongo `ObjectId`s) are modelled as `String`s; fresh ids are drawn
from a counter carried in the store state.  Timestamps are `Nat`s.  The mongoose
persistence layer is embedded as explicit state passing over a `DB` record whose
collections are association lists, and each fallible operation returns
`Except String _` mirroring the `ChatResponse = Chat | {error: string}` union of
the source.
-/

/-- Decidable equality of `Except` results, for evaluating concrete runs. -/
instance {ε α : Type} [DecidableEq ε] [DecidableEq α] : DecidableEq (Except ε α) := fun a b =>
  match a, b with
  | Except.error e1, Except.error e2 =>
    if h : e1 = e2 then isTrue (by rw [h]) else isFalse (by intro hc; cases hc; exact h rfl)
  | Except.error _, Except.ok _ => isFalse (by intro hc; cases hc)
  | Except.ok _, Except.error _ => isFalse (by intro hc; cases hc)
  | Except.ok a1, Except.ok a2 =>
    if h : a1 = a2 then isTrue (by rw [h]) else isFalse (by intro hc; cases hc; exact h rfl)

namespace ChatApp

/-- Mongo `ObjectId` of a user document, as a string. -/
abbrev UserId := String

/-- Mongo `ObjectId` of a message document, as a string. -/
abbrev MessageId := String

/-- Mongo `ObjectId` of a chat document, as a string. -/
abbrev ChatId := String

/-- A user document: `_id` plus the unique `username`.
Modelled from the spec: `users.model.ts` and the `User` type are not among the
provided sources; per the spec the User Directory "resolves usernames to stable
user identifiers", so a user document carries a stable id distinct from the
username it is looked up by. -/
structure UserDoc where
  id : UserId
  username : String
  deriving Repr, DecidableEq

/-- The raw message payload handled by the service layer
(`types/message.ts`: `msg`, `msgFrom`, `msgDateTime`, `type: 'direct'`). -/
structure Message where
  msg : String
  msgFrom : String
  msgDateTime : Nat
  type : String
  deriving Repr, DecidableEq

/-- A persisted message document: the payload plus its `_id`. -/
structure MessageDoc where
  id : MessageId
  msg : String
  msgFrom : String
  msgDateTime : Nat
  type : String
  deriving Repr, DecidableEq

/-- The `{_id, username}` sender projection of `types/chat.ts` (`MessageInChat.user`). -/
structure UserProj where
  id : UserId
  username : String
  deriving Repr, DecidableEq

/-- `MessageInChat` of `types/chat.ts`: a message document together with the
enriched sender projection (`null` when the sender's user record is absent). -/
structure MessageInChat where
  id : MessageId
  msg : String
  msgFrom : String
  msgDateTime : Nat
  type : String
  user : Option UserProj
  deriving Repr, DecidableEq

/-- A persisted chat document, shaped by `models/schema/chat.schema.ts`:
`participants` is an array of user ObjectIds and `messages` an array of
message ObjectIds (`ref: 'Message'`). -/
structure ChatDoc where
  id : ChatId
  participants : List UserId
  messages : List MessageId
  deriving Repr, DecidableEq

/-- The value returned by `getChat`: the service builds the plain object
`{ participants, messages }` where `messages` holds the documents obtained by
populating the stored message ids against `MessageModel` (so each entry is a
raw message document; the schema stores no `user` projection to recover). -/
structure ChatPopulated where
  participants : List UserId
  messages : List MessageDoc
  deriving Repr, DecidableEq

/-- The document store backing the three mongoose models, plus a counter used
to mint fresh ObjectIds. -/
structure DB where
  users : List UserDoc
  messageDocs : List MessageDoc
  chats : List ChatDoc
  nextId : Nat
  deriving Repr, DecidableEq

/-- Mint a fresh ObjectId from the counter. -/
def freshId (n : Nat) : String := "oid" ++ toString n

/-- `UserModel.findOne({ username })`. -/
def findUserByUsername (db : DB) (username : String) : Option UserDoc :=
  db.users.find? (fun u => u.username == username)

/-- `MessageModel.findById(messageId)`. -/
def findMessageById (db : DB) (messageId : MessageId) : Option MessageDoc :=
  db.messageDocs.find? (fun m => m.id == messageId)

/-- `ChatModel.findById(chatId)`. -/
def findChatById (db : DB) (chatId : ChatId) : Option ChatDoc :=
  db.chats.find? (fun c => c.id == chatId)

/-- Replace the chat document carrying `c.id` by `c` (the write performed by
`ChatModel.findByIdAndUpdate` once the document has been found). -/
def updateChatById (chats : List ChatDoc) (c : ChatDoc) : List ChatDoc :=
  chats.map (fun old => if old.id == c.id then c else old)

/-- Modelled from the spec: `message.service.ts` (`saveMessage`) is not among
the provided sources — only its caller `createMessage` is.  Per the spec,
message creation "fails with `UnknownSender` if `senderUsername` does not
resolve", "fails with `InvalidMessage` if `text` is empty", and otherwise
"persists one immutable Message record; does not attach it to any chat". -/
def saveMessage (db : DB) (m : Message) : DB × Except String MessageDoc :=
  if m.msg = "" then
    (db, Except.error "InvalidMessage")
  else
    match findUserByUsername db m.msgFrom with
    | none => (db, Except.error "UnknownSender")
    | some _ =>
      let doc : MessageDoc :=
        { id := freshId db.nextId, msg := m.msg, msgFrom := m.msgFrom,
          msgDateTime := m.msgDateTime, type := m.type }
      ({ db with messageDocs := db.messageDocs ++ [doc], nextId := db.nextId + 1 },
       Except.ok doc)

/-- `createMessage` of `chat.service.ts` — delegates to `saveMessage`. -/
def createMessage (db : DB) (messageData : Message) : DB × Except String MessageDoc :=
  saveMessage db messageData

/-- A message that `saveMessage` rejects: empty text or unresolvable sender. -/
def invalidMessage (db : DB) (m : Message) : Bool :=
  m.msg == "" || (findUserByUsername db m.msgFrom).isNone

/-- `addMessageToChat` of `chat.service.ts`.  Looks the message up first
(`No message found` on absence), computes the sender projection, and runs
`ChatModel.findByIdAndUpdate(chatId, { $push: { messages: messageInChat } },
{ new: true })`.  The chat schema declares `messages` as an array of ObjectId
refs, so mongoose casts the pushed `messageInChat` object to its `_id`: the
stored sequence gains the message id at the tail, and the computed `user`
projection is not persisted. -/
def addMessageToChat (db : DB) (chatId : ChatId) (messageId : MessageId) :
    DB × Except String ChatDoc :=
  match findMessageById db messageId with
  | none => (db, Except.error ("No message found with ID: " ++ messageId))
  | some message =>
    let user : Option UserProj :=
      (findUserByUsername db message.msgFrom).map (fun u => { id := u.id, username := u.username })
    let messageInChat : MessageInChat :=
      { id := message.id, msg := message.msg, msgFrom := message.msgFrom,
        msgDateTime := message.msgDateTime, type := message.type, user := user }
    match findChatById db chatId with
    | none => (db, Except.error ("No chat found with ID: " ++ chatId))
    | some chat =>
      let updated : ChatDoc := { chat with messages := chat.messages ++ [messageInChat.id] }
      ({ db with chats := updateChatById db.chats updated }, Except.ok updated)

/-- The payload of `saveChat` (`CreateChatPayload`): participant usernames and
raw initial messages. -/
structure CreateChatPayload where
  participants : List String
  messages : List Message
  deriving Repr, DecidableEq

/-- `participantResults.findIndex(r => r === null)` over the results of the
per-username `UserModel.findOne` lookups. -/
def findNoneIdx : List (Option UserDoc) → Option Nat
  | [] => none
  | none :: _ => some 0
  | some _ :: rest => (findNoneIdx rest).map (fun i => i + 1)

/-- The message-population loop at the end of `saveChat`: for each raw message,
`createMessage` then `addMessageToChat`; a `createMessage` failure returns
immediately, while the guard after `addMessageToChat` tests `'error' in chat` —
the created chat document, which never has an `error` key — so the loop never
exits early on an append failure and the last `addMessageToChat` result becomes
the returned `chatResponse`. -/
def saveChatLoop (db : DB) (chatId : ChatId) (msgs : List Message)
    (acc : Except String ChatDoc) : DB × Except String ChatDoc :=
  match msgs with
  | [] => (db, acc)
  | m :: rest =>
    match createMessage db m with
    | (db1, Except.error e) =>
      (db1, Except.error ("Error when creating new chat messages: " ++ e))
    | (db1, Except.ok doc) =>
      match addMessageToChat db1 chatId doc.id with
      | (db2, r) => saveChatLoop db2 chatId rest r

/-- `saveChat` of `chat.service.ts`: resolve every participant username (first
unresolvable one aborts with `No user found with username`), create the chat
document with an empty message list, then populate the initial messages with
`saveChatLoop`, starting from the placeholder response
`{ error: 'Did not populate messages' }`. -/
def saveChat (db : DB) (chatPayload : CreateChatPayload) : DB × Except String ChatDoc :=
  let participantResults := chatPayload.participants.map (fun u => findUserByUsername db u)
  match findNoneIdx participantResults with
  | some i =>
    (db, Except.error ("No user found with username: " ++ chatPayload.participants.getD i ""))
  | none =>
    let participants := participantResults.filterMap (fun r => r.map (fun u => u.id))
    let chat : ChatDoc := { id := freshId db.nextId, participants := participants, messages := [] }
    let db1 : DB := { db with chats := db.chats ++ [chat], nextId := db.nextId + 1 }
    saveChatLoop db1 chat.id chatPayload.messages (Except.error "Did not populate messages")

/-- `getChat` of `chat.service.ts`:
`ChatModel.findById(chatId).populate({ path: 'messages', model: MessageModel })`,
then return the plain object `{ participants, messages }`.  Population replaces
each stored message id by the corresponding message document; ids that no
longer resolve are dropped from the array. -/
def getChat (db : DB) (chatId : ChatId) : Except String ChatPopulated :=
  match findChatById db chatId with
  | none => Except.error ("No chat found with ID: " ++ chatId)
  | some chatResult =>
    Except.ok
      { participants := chatResult.participants,
        messages := chatResult.messages.filterMap (fun mid => findMessageById db mid) }

/-- `getChatsByParticipants` of `chat.service.ts`:
`ChatModel.find({ participants: { $all: p } })`, matching the chats whose
stored `participants` array contains every element of `p`, and `[]` on any
error.  (At runtime the stored participants are user ObjectIds while callers
pass usernames; a username that is not id-shaped makes the cast of the `$all`
operand raise, which the `catch` also collapses to `[]` — the same observable
result as the direct no-match modelled here.) -/
def getChatsByParticipants (db : DB) (p : List String) : List ChatDoc :=
  db.chats.filter (fun c => p.all (fun x => c.participants.contains x))

/-- `addParticipantToChat` of `chat.service.ts`:
`ChatModel.findByIdAndUpdate(chatId, { $push: { participants: userId } },
{ new: true })` — no user lookup is performed, and `$push` appends
unconditionally. -/
def addParticipantToChat (db : DB) (chatId : ChatId) (userId : UserId) :
    DB × Except String ChatDoc :=
  match findChatById db chatId with
  | none => (db, Except.error ("No chat found with ID: " ++ chatId))
  | some chat =>
    let updated : ChatDoc := { chat with participants := chat.participants ++ [userId] }
    ({ db with chats := updateChatById db.chats updated }, Except.ok updated)

/-! ## Chat controller (`chat.controller.ts`) -/

/-- The discriminant of a `ChatUpdatePayload` (`types/chat.ts`):
`'created' | 'newMessage'`. -/
inductive ChatUpdateType
  | created
  | newMessage
  deriving Repr, DecidableEq

/-- `ChatUpdatePayload` of `types/chat.ts`: the updated chat and the update kind. -/
structure ChatUpdatePayload where
  chat : ChatDoc
  type : ChatUpdateType
  deriving Repr, DecidableEq

/-- The observable outcome of one route invocation: every status code the
handler attempted to send (in order; an HTTP client receives the first one),
every `chatUpdate` socket event emitted (room id and payload), and the store
afterwards. -/
structure RouteResult where
  status : List Nat
  emits : List (String × ChatUpdatePayload)
  db : DB
  deriving Repr, DecidableEq

/-- A JSON field that may be a value, JS `null`, or absent (`undefined`). -/
inductive DateField
  | undef
  | dnull
  | dval (t : Nat)
  deriving Repr, DecidableEq

/-- The body of an add-message request (`AddMessagePayload`): `msg` and
`msgFrom` may be absent (`none`), `msgDateTime` may be absent, `null`, or a
date. -/
structure AddMessageBody where
  msg : Option String
  msgFrom : Option String
  msgDateTime : DateField
  deriving Repr, DecidableEq

/-- `isAddMessageRequestValid`: the body exists, `msg` and `msgFrom` are
present and non-empty, and `msgDateTime` is not `null`. -/
def isAddMessageRequestValid (body : Option AddMessageBody) : Bool :=
  match body with
  | none => false
  | some b =>
    b.msg != none && b.msg != some "" &&
    b.msgFrom != none && b.msgFrom != some "" &&
    b.msgDateTime != DateField.dnull

/-- `addMessageToChatRoute`: on an invalid body it sends 400 — but the source
has no `return` after that send (unlike the sibling routes), so execution falls
through into the `try` block regardless: the message is created
(`msgDateTime ?? new Date()` replaces an absent or `null` date by `now`; an
absent `msg`/`msgFrom` reads as `undefined`, which the message validation
rejects like empty text), appended to the chat, and a `newMessage` event is
emitted to the chat room, after which a second send of 200 is attempted. -/
def addMessageToChatRoute (db : DB) (now : Nat) (chatId : ChatId)
    (body : Option AddMessageBody) : RouteResult :=
  let initial : List Nat := if isAddMessageRequestValid body then [] else [400]
  match body with
  | none =>
    -- reading `req.body.msg` with no body throws inside the `try`, giving 500
    { status := initial ++ [500], emits := [], db := db }
  | some b =>
    let messageData : Message :=
      { msg := b.msg.getD "", msgFrom := b.msgFrom.getD "",
        msgDateTime := match b.msgDateTime with | DateField.dval t => t | _ => now,
        type := "direct" }
    match createMessage db messageData with
    | (db1, Except.error _) => { status := initial ++ [500], emits := [], db := db1 }
    | (db1, Except.ok doc) =>
      match addMessageToChat db1 chatId doc.id with
      | (db2, Except.error _) => { status := initial ++ [500], emits := [], db := db2 }
      | (db2, Except.ok chat) =>
        { status := initial ++ [200],
          emits := [(chatId, { chat := chat, type := ChatUpdateType.newMessage })],
          db := db2 }

/-- `isCreateChatRequestValid`: the body exists and `participants` and
`messages` are arrays — in the embedding a present payload always carries the
two lists. -/
def isCreateChatRequestValid (body : Option CreateChatPayload) : Bool :=
  body.isSome

/-- `createChatRoute`: validate the shape (this route does `return` after its
400), call `saveChat`, and answer 200 with the chat or 500 on a service error.
The handler emits no socket event in either branch. -/
def createChatRoute (db : DB) (body : Option CreateChatPayload) : RouteResult :=
  match body with
  | none => { status := [400], emits := [], db := db }
  | some chatPayload =>
    match saveChat db chatPayload with
    | (db1, Except.error _) => { status := [500], emits := [], db := db1 }
    | (db1, Except.ok _) => { status := [200], emits := [], db := db1 }

/-! ## Socket room handlers (`chat.controller.ts`, `socket.on('connection')`) -/

/-- A socket connection identifier. -/
abbrev ConnId := String

/-- Room membership: the set of `(room, connection)` subscription pairs,
as a list without a duplication guarantee of its own. -/
abbrev RoomState := List (String × ConnId)

/-- Modelled from the spec: the socket.io room layer behind `conn.join` is not
among the provided sources; per the spec a room maps "a chat identifier to a
set of currently-subscribed connections", so joining inserts the pair only
when it is not already subscribed. -/
def joinRoom (st : RoomState) (conn : ConnId) (chatId : String) : RoomState :=
  if st.contains (chatId, conn) then st else (chatId, conn) :: st

/-- Modelled from the spec: `conn.leave` removes the connection from the named
room's subscriber set (a no-op when it was not subscribed). -/
def leaveRoom (st : RoomState) (conn : ConnId) (chatId : String) : RoomState :=
  st.filter (fun x => x != (chatId, conn))

/-- The `joinChat` connection handler: `conn.join(chatId)`. -/
def onJoinChat (st : RoomState) (conn : ConnId) (chatId : String) : RoomState :=
  joinRoom st conn chatId

/-- The `leaveChat` connection handler: `if (chatId !== undefined)
conn.leave(chatId)` — an absent chat id leaves the room state untouched. -/
def onLeaveChat (st : RoomState) (conn : ConnId) (chatId : Option String) : RoomState :=
  match chatId with
  | none => st
  | some cid => leaveRoom st conn cid

/-! ## Concrete stores used by the witnesses and counterexamples -/

/-- A store holding the single user `alice` and nothing else. -/
def dbAlice : DB :=
  { users := [{ id := "uid1", username := "alice" }],
    messageDocs := [], chats := [], nextId := 0 }

/-- A chat between `alice` (id `uid1`) only, holding message `m1`. -/
def chatC1 : ChatDoc := { id := "c1", participants := ["uid1"], messages := ["m1"] }

/-- A store with `alice`, one persisted message `m1` from her, and `chatC1`. -/
def dbEnrich : DB :=
  { users := [{ id := "uid1", username := "alice" }],
    messageDocs := [{ id := "m1", msg := "hi", msgFrom := "alice", msgDateTime := 5, type := "direct" }],
    chats := [chatC1], nextId := 0 }

/-- Scenario D of the spec: users `alice`/`bob`/`carol` (ids `uid1`/`uid2`/`uid3`)
and the three chats `{alice,bob}`, `{alice,carol}`, `{bob,carol}`, stored — as
`saveChat` stores them — by user id. -/
def dbScenD : DB :=
  { users := [{ id := "uid1", username := "alice" }, { id := "uid2", username := "bob" },
              { id := "uid3", username := "carol" }],
    messageDocs := [],
    chats := [{ id := "c1", participants := ["uid1", "uid2"], messages := [] },
              { id := "c2", participants := ["uid1", "uid3"], messages := [] },
              { id := "c3", participants := ["uid2", "uid3"], messages := [] }],
    nextId := 0 }

/-- A chat between `alice` (id `uid1`) only, with no messages yet. -/
def chatEmptyC1 : ChatDoc := { id := "c1", participants := ["uid1"], messages := [] }

/-- A store with `alice` and the empty chat `chatEmptyC1` she participates in. -/
def dbOneChat : DB :=
  { users := [{ id := "uid1", username := "alice" }],
    messageDocs := [],
    chats := [chatEmptyC1], nextId := 0 }

/-- A store with `alice`, the persisted message `m1` from her, and the empty
chat `chatEmptyC1`. -/
def dbMsgChat : DB :=
  { users := [{ id := "uid1", username := "alice" }],
    messageDocs := [{ id := "m1", msg := "hi", msgFrom := "alice", msgDateTime := 5, type := "direct" }],
    chats := [chatEmptyC1], nextId := 0 }

/-- A create payload naming the unresolvable participant `ghost`. -/
def pGhost : CreateChatPayload := { participants := ["ghost"], messages := [] }

/-- A create payload for `alice` whose single initial message has empty text. -/
def pBadMsg : CreateChatPayload :=
  { participants := ["alice"],
    messages := [{ msg := "", msgFrom := "alice", msgDateTime := 1, type := "direct" }] }

/-- A create payload for `alice` with one valid initial message. -/
def pGood : CreateChatPayload :=
  { participants := ["alice"],
    messages := [{ msg := "hi", msgFrom := "alice", msgDateTime := 5, type := "direct" }] }

/-- An add-message body whose `msgDateTime` is JS `null` — rejected by
`isAddMessageRequestValid` — while `msg` and `msgFrom` are well-formed. -/
def body8 : AddMessageBody :=
  { msg := some "hi", msgFrom := some "alice", msgDateTime := DateField.dnull }

/-! ## Helper lemmas -/

/-- `createMessage` never touches the user or chat collections. -/
theorem createMessage_users_chats (db : DB) (m : Message) :
    (createMessage db m).1.users = db.users ∧ (createMessage db m).1.chats = db.chats := by
  unfold createMessage saveMessage
  split
  · exact ⟨rfl, rfl⟩
  · cases findUserByUsername db m.msgFrom <;> exact ⟨rfl, rfl⟩

/-- `addMessageToChat` never touches the user collection and never changes the
number of chat documents. -/
theorem addMessageToChat_users_chatsLength (db : DB) (cid : ChatId) (mid : MessageId) :
    (addMessageToChat db cid mid).1.users = db.users ∧
    (addMessageToChat db cid mid).1.chats.length = db.chats.length := by
  unfold addMessageToChat
  cases findMessageById db mid
  · exact ⟨rfl, rfl⟩
  · cases findChatById db cid
    · exact ⟨rfl, rfl⟩
    · exact ⟨rfl, by simp [updateChatById]⟩

/-- Message validity only depends on the user collection. -/
theorem invalidMessage_congr {db1 db2 : DB} (h : db1.users = db2.users) (m : Message) :
    invalidMessage db1 m = invalidMessage db2 m := by
  unfold invalidMessage findUserByUsername
  rw [h]

/-- An invalid message makes `createMessage` fail without touching the store. -/
theorem createMessage_error_of_invalid {db : DB} {m : Message}
    (h : invalidMessage db m = true) :
    (createMessage db m).1 = db ∧ ∃ e, (createMessage db m).2 = Except.error e := by
  unfold invalidMessage at h
  unfold createMessage saveMessage
  rcases Bool.or_eq_true_iff.mp h with h1 | h1
  · rw [if_pos (by exact beq_iff_eq.mp h1)]
    exact ⟨rfl, _, rfl⟩
  · by_cases hmsg : m.msg = ""
    · rw [if_pos hmsg]; exact ⟨rfl, _, rfl⟩
    · rw [if_neg hmsg]
      rcases hfind : findUserByUsername db m.msgFrom with _ | u
      · exact ⟨rfl, _, rfl⟩
      · rw [hfind] at h1; simp at h1

/-- A valid message makes `createMessage` persist exactly one new document. -/
theorem createMessage_ok_of_valid {db : DB} {m : Message}
    (h : invalidMessage db m = false) :
    ∃ doc, createMessage db m =
      ({ db with messageDocs := db.messageDocs ++ [doc], nextId := db.nextId + 1 },
       Except.ok doc) := by
  unfold invalidMessage at h
  rcases Bool.or_eq_false_iff.mp h with ⟨h1, h2⟩
  unfold createMessage saveMessage
  rw [if_neg (by simpa using h1)]
  rcases hfind : findUserByUsername db m.msgFrom with _ | u
  · rw [hfind] at h2; simp at h2
  · exact ⟨_, rfl⟩

/-- If some message in the list is invalid, the population loop of `saveChat`
ends in an error and leaves the number of chat documents unchanged. -/
theorem saveChatLoop_invalid :
    ∀ (msgs : List Message) (db : DB) (cid : ChatId) (acc : Except String ChatDoc),
      (∃ m ∈ msgs, invalidMessage db m = true) →
      (∃ e, (saveChatLoop db cid msgs acc).2 = Except.error e) ∧
      (saveChatLoop db cid msgs acc).1.chats.length = db.chats.length := by
  intro msgs
  induction msgs with
  | nil => intro db cid acc h; rcases h with ⟨m, hm, _⟩; simp at hm
  | cons m rest ih =>
    intro db cid acc h
    by_cases hm : invalidMessage db m = true
    · rcases createMessage_error_of_invalid hm with ⟨hdb, e, he⟩
      rcases hcm : createMessage db m with ⟨db1, r⟩
      rw [hcm] at hdb he
      simp only at hdb he
      subst hdb he
      simp [saveChatLoop, hcm]
    · rcases createMessage_ok_of_valid (Bool.eq_false_iff.mpr hm) with ⟨doc, hcm⟩
      rcases h with ⟨m', hm', hinv⟩
      rcases List.mem_cons.mp hm' with rfl | hm'
      · exact absurd hinv hm
      · rcases hadd : addMessageToChat
            { db with messageDocs := db.messageDocs ++ [doc], nextId := db.nextId + 1 }
            cid doc.id with ⟨db2, r2⟩
        have husers : db2.users = db.users := by
          have h1 := (addMessageToChat_users_chatsLength
            { db with messageDocs := db.messageDocs ++ [doc], nextId := db.nextId + 1 }
            cid doc.id).1
          rw [hadd] at h1
          exact h1
        have hlen : db2.chats.length = db.chats.length := by
          have h1 := (addMessageToChat_users_chatsLength
            { db with messageDocs := db.messageDocs ++ [doc], nextId := db.nextId + 1 }
            cid doc.id).2
          rw [hadd] at h1
          exact h1
        have hrec := ih db2 cid r2 ⟨m', hm', by rw [invalidMessage_congr husers]; exact hinv⟩
        refine ⟨?_, ?_⟩
        · simpa [saveChatLoop, hcm, hadd] using hrec.1
        · rw [show (saveChatLoop db cid (m :: rest) acc).1
                = (saveChatLoop db2 cid rest r2).1 by simp [saveChatLoop, hcm, hadd]]
          rw [hrec.2, hlen]

/-- If no lookup result is `null`, `findIndex(r => r === null)` misses. -/
theorem findNoneIdx_eq_none {l : List (Option UserDoc)} (h : ∀ r ∈ l, r ≠ none) :
    findNoneIdx l = none := by
  induction l with
  | nil => rfl
  | cons r rest ih =>
    rcases r with _ | u
    · exact absurd rfl (h none (List.mem_cons_self _ _))
    · simp [findNoneIdx, ih (fun x hx => h x (List.mem_cons_of_mem _ hx))]

/-- If some lookup result is `null`, `findIndex(r => r === null)` hits. -/
theorem findNoneIdx_eq_some {l : List (Option UserDoc)} (h : none ∈ l) :
    ∃ i, findNoneIdx l = some i := by
  induction l with
  | nil => simp at h
  | cons r rest ih =>
    rcases r with _ | u
    · exact ⟨0, rfl⟩
    · rcases List.mem_cons.mp h with h1 | h1
      · exact absurd h1.symm (by simp)
      · rcases ih h1 with ⟨i, hi⟩
        exact ⟨i + 1, by simp [findNoneIdx, hi]⟩

/-! ## Claims -/

/-- C1 (counterexample): against a store holding only the user `alice`,
`saveChat` with participant `alice` and a single initial message with empty
text returns an error, yet afterwards the chat created by that call is
observable in storage — the operation is not atomic as the claim states. -/
theorem saveChat_invalid_message_not_atomic :
    (saveChat dbAlice pBadMsg).2
      = Except.error "Error when creating new chat messages: InvalidMessage" ∧
    dbAlice.chats = [] ∧
    (saveChat dbAlice pBadMsg).1.chats
      = [{ id := "oid0", participants := ["uid1"], messages := [] }] := by
  decide

/-- C1 (amended): if any participant username is unresolvable, `saveChat`
fails before any write (that branch is atomic); but if every participant
resolves and some initial message is invalid (empty text or unresolvable
sender), `saveChat` returns an error while the chat document created by the
call remains in storage — one more chat than before. -/
theorem saveChat_atomicity_amended (db : DB) (p : CreateChatPayload) :
    ((∃ u ∈ p.participants, findUserByUsername db u = none) →
        (saveChat db p).1 = db ∧ ∃ e, (saveChat db p).2 = Except.error e) ∧
    ((∀ u ∈ p.participants, findUserByUsername db u ≠ none) →
     (∃ m ∈ p.messages, invalidMessage db m = true) →
        (∃ e, (saveChat db p).2 = Except.error e) ∧
        (saveChat db p).1.chats.length = db.chats.length + 1) := by
  constructor
  · rintro ⟨u, hu, hnone⟩
    have hmem : none ∈ p.participants.map (fun v => findUserByUsername db v) := by
      rw [← hnone]
      exact List.mem_map_of_mem _ hu
    rcases findNoneIdx_eq_some hmem with ⟨i, hi⟩
    constructor
    · simp [saveChat, hi]
    · refine ⟨"No user found with username: " ++ p.participants.getD i "", ?_⟩
      simp [saveChat, hi, List.getD]
  · intro hall hinv
    have hidx : findNoneIdx (p.participants.map (fun v => findUserByUsername db v)) = none := by
      apply findNoneIdx_eq_none
      intro r hr
      rcases List.mem_map.mp hr with ⟨u, hu, rfl⟩
      exact hall u hu
    have hsave : saveChat db p
        = saveChatLoop
            { db with
                chats := db.chats ++
                  [{ id := freshId db.nextId,
                     participants := (p.participants.map (fun v => findUserByUsername db v)).filterMap
                       (fun r => r.map (fun u => u.id)),
                     messages := [] }],
                nextId := db.nextId + 1 }
            (freshId db.nextId) p.messages (Except.error "Did not populate messages") := by
      simp [saveChat, hidx]
    rcases hinv with ⟨m, hm, hminv⟩
    have hloop := saveChatLoop_invalid p.messages
      { db with
          chats := db.chats ++
            [{ id := freshId db.nextId,
               participants := (p.participants.map (fun v => findUserByUsername db v)).filterMap
                 (fun r => r.map (fun u => u.id)),
               messages := [] }],
          nextId := db.nextId + 1 }
      (freshId db.nextId) (Except.error "Did not populate messages")
      ⟨m, hm, by exact hminv⟩
    rw [hsave]
    refine ⟨hloop.1, ?_⟩
    rw [hloop.2]
    simp

/-- C1 (witness): the amended theorem applied to the store holding `alice`:
the unresolvable participant `ghost` leaves the store untouched, and the
empty-text initial message leaves one freshly created chat behind. -/
theorem saveChat_atomicity_amended_witness :
    ((saveChat dbAlice pGhost).1 = dbAlice ∧
      ∃ e, (saveChat dbAlice pGhost).2 = Except.error e) ∧
    ((∃ e, (saveChat dbAlice pBadMsg).2 = Except.error e) ∧
      (saveChat dbAlice pBadMsg).1.chats.length = dbAlice.chats.length + 1) :=
  ⟨(saveChat_atomicity_amended dbAlice pGhost).1 ⟨"ghost", by decide, by decide⟩,
   (saveChat_atomicity_amended dbAlice pBadMsg).2 (by decide)
     ⟨{ msg := "", msgFrom := "alice", msgDateTime := 1, type := "direct" }, by decide, by decide⟩⟩

/-- C2: against a store where message `m1` from the resolvable sender `alice`
sits in chat `c1`, `getChat` succeeds but returns the populated raw message
document — the `ChatPopulated.messages` entries carry no `user` projection at
all, because the schema stores only message ids and population attaches no
sender snapshot.  The claimed enrichment (`user = {id, username}`, or `null`
for unresolvable senders) is absent even though the sender resolves. -/
theorem getChat_returns_unenriched_messages :
    getChat dbEnrich "c1"
      = Except.ok { participants := ["uid1"],
                    messages := [{ id := "m1", msg := "hi", msgFrom := "alice",
                                   msgDateTime := 5, type := "direct" }] } ∧
    findUserByUsername dbEnrich "alice" = some { id := "uid1", username := "alice" } := by
  decide

/-- C3: `addMessageToChat` fails with the message-not-found error when the
message id does not resolve, leaving the store (hence the chat's message
count) unchanged; fails with the chat-not-found error when the message exists
but the chat does not; and otherwise appends the message id at the tail of the
chat's message sequence and returns the updated chat. -/
theorem addMessageToChat_errors_and_append (db : DB) (cid : ChatId) (mid : MessageId) :
    (findMessageById db mid = none →
        addMessageToChat db cid mid
          = (db, Except.error ("No message found with ID: " ++ mid))) ∧
    (findMessageById db mid ≠ none → findChatById db cid = none →
        addMessageToChat db cid mid
          = (db, Except.error ("No chat found with ID: " ++ cid))) ∧
    (∀ c : ChatDoc, findMessageById db mid ≠ none → findChatById db cid = some c →
        addMessageToChat db cid mid
          = ({ db with chats := updateChatById db.chats { c with messages := c.messages ++ [mid] } },
             Except.ok { c with messages := c.messages ++ [mid] })) := by
  refine ⟨?_, ?_, ?_⟩
  · intro h
    simp [addMessageToChat, h]
  · intro h1 h2
    rcases hm : findMessageById db mid with _ | m
    · exact absurd hm h1
    · simp [addMessageToChat, hm, h2]
  · intro c h1 h2
    rcases hm : findMessageById db mid with _ | m
    · exact absurd hm h1
    · have hid : m.id = mid := by
        have hm' : db.messageDocs.find? (fun d => d.id == mid) = some m := by
          simpa [findMessageById] using hm
        have hp := List.find?_some hm'
        exact eq_of_beq hp
      simp [addMessageToChat, hm, h2, hid]

/-- C3 (witness): appending the existing message `m1` to the existing empty
chat `c1` succeeds and places `m1` at the tail. -/
theorem addMessageToChat_errors_and_append_witness :
    addMessageToChat dbMsgChat "c1" "m1"
      = ({ dbMsgChat with
            chats := updateChatById dbMsgChat.chats
              { chatEmptyC1 with messages := chatEmptyC1.messages ++ ["m1"] } },
         Except.ok { chatEmptyC1 with messages := chatEmptyC1.messages ++ ["m1"] }) :=
  (addMessageToChat_errors_and_append dbMsgChat "c1" "m1").2.2 chatEmptyC1
    (by decide) (by decide)

/-- C4: no user in the store has id `idghost`, yet `addParticipantToChat`
succeeds and appends `idghost` to the chat — the service performs no user
lookup, contradicting the claimed `UnknownUser` failure. -/
theorem addParticipantToChat_accepts_unknown_user :
    (dbOneChat.users.all (fun u => u.id != "idghost")) = true ∧
    addParticipantToChat dbOneChat "c1" "idghost"
      = ({ dbOneChat with
            chats := [{ id := "c1", participants := ["uid1", "idghost"], messages := [] }] },
         Except.ok { id := "c1", participants := ["uid1", "idghost"], messages := [] }) := by
  decide

/-- C5 (counterexample): re-adding the existing participant `uid1` to chat
`c1` appends a duplicate entry, so the participants list is no longer
duplicate-free. -/
theorem addParticipantToChat_duplicate_counterexample :
    (addParticipantToChat dbOneChat "c1" "uid1").2
      = Except.ok { id := "c1", participants := ["uid1", "uid1"], messages := [] } ∧
    ¬ (["uid1", "uid1"] : List String).Nodup := by
  decide

/-- C5 (amended): whenever the chat exists, `addParticipantToChat` appends the
given user id unconditionally (`$push` semantics) — re-adding an existing
participant duplicates it rather than being a no-op or an error. -/
theorem addParticipantToChat_always_appends (db : DB) (cid : ChatId) (uid : UserId)
    (c : ChatDoc) (h : findChatById db cid = some c) :
    addParticipantToChat db cid uid
      = ({ db with
            chats := updateChatById db.chats { c with participants := c.participants ++ [uid] } },
         Except.ok { c with participants := c.participants ++ [uid] }) := by
  simp [addParticipantToChat, h]

/-- C5 (witness): adding `uid9` to the existing chat `c1` appends it. -/
theorem addParticipantToChat_always_appends_witness :
    addParticipantToChat dbOneChat "c1" "uid9"
      = ({ dbOneChat with
            chats := updateChatById dbOneChat.chats
              { chatEmptyC1 with participants := chatEmptyC1.participants ++ ["uid9"] } },
         Except.ok { chatEmptyC1 with participants := chatEmptyC1.participants ++ ["uid9"] }) :=
  addParticipantToChat_always_appends dbOneChat "c1" "uid9" chatEmptyC1 (by decide)

/-- C6: with every participant resolvable and an empty initial-message list,
`saveChat` creates the chat document but returns the placeholder error
`Did not populate messages` instead of the chat. -/
theorem saveChat_empty_messages_returns_error :
    saveChat dbAlice { participants := ["alice"], messages := [] }
      = ({ dbAlice with
            chats := [{ id := "oid0", participants := ["uid1"], messages := [] }],
            nextId := 1 },
         Except.error "Did not populate messages") := by
  decide

/-- C7: in the Scenario-D store (participants persisted as user ids, exactly
as `saveChat` stores them), the username query `["alice"]` matches no chat and
returns `[]`, although `alice` resolves and is — by id — a participant of the
first two chats; the same superset filter applied to her id returns exactly
those two chats.  The username-level contract of the claim does not hold. -/
theorem getChatsByParticipants_usernames_match_nothing :
    getChatsByParticipants dbScenD ["alice"] = [] ∧
    findUserByUsername dbScenD "alice" = some { id := "uid1", username := "alice" } ∧
    getChatsByParticipants dbScenD ["uid1"]
      = [{ id := "c1", participants := ["uid1", "uid2"], messages := [] },
         { id := "c2", participants := ["uid1", "uid3"], messages := [] }] := by
  decide

/-- C8: the add-message body with `msgDateTime: null` fails shape validation,
and the route answers 400 — but, lacking a `return`, it continues: the message
is persisted, the chat is mutated, a `newMessage` event is emitted, and a
second 200 send is attempted.  The request does reach storage. -/
theorem addMessageRoute_400_still_writes :
    addMessageToChatRoute dbOneChat 99 "c1" (some body8)
      = { status := [400, 200],
          emits := [("c1",
            { chat := { id := "c1", participants := ["uid1"], messages := ["oid0"] },
              type := ChatUpdateType.newMessage })],
          db := { users := [{ id := "uid1", username := "alice" }],
                  messageDocs := [{ id := "oid0", msg := "hi", msgFrom := "alice",
                                    msgDateTime := 99, type := "direct" }],
                  chats := [{ id := "c1", participants := ["uid1"], messages := ["oid0"] }],
                  nextId := 1 } } := by
  decide

/-- C9: a fully successful chat creation answers 200 and emits no socket event
at all — in particular no `chatUpdate` with payload `{type: 'created', chat}`
is broadcast, although the client's `handleChatUpdate` consumes exactly that
event to learn about new chats. -/
theorem createChatRoute_emits_no_created_event :
    createChatRoute dbAlice (some pGood)
      = { status := [200],
          emits := [],
          db := { users := [{ id := "uid1", username := "alice" }],
                  messageDocs := [{ id := "oid1", msg := "hi", msgFrom := "alice",
                                    msgDateTime := 5, type := "direct" }],
                  chats := [{ id := "oid0", participants := ["uid1"], messages := ["oid1"] }],
                  nextId := 2 } } := by
  decide

/-- C10: the `joinChat` handler is idempotent — joining the same room twice
from the same connection yields the same room state as joining once — and the
`leaveChat` handler maps an absent (`undefined`) chat id to the unchanged room
state instead of raising. -/
theorem joinChat_idempotent_leaveChat_tolerates_undefined
    (st : RoomState) (conn : ConnId) (chatId : String) :
    onJoinChat (onJoinChat st conn chatId) conn chatId = onJoinChat st conn chatId ∧
    onLeaveChat st conn none = st := by
  refine ⟨?_, rfl⟩
  unfold onJoinChat joinRoom
  by_cases h : (chatId, conn) ∈ st
  · simp [h]
  · simp [h]

end ChatApp
